import Mathlib

/-!
Shallow embedding of the core calculation engines of the ozonDataHandel
repository, together with proofs of the specified properties.

Covered source units:
* `Finance/Logisticscost1.py` — shipping-cost engine (hour-coefficient table,
  light-small flat fee, recorded-cost override, old/new base-fee schedules).
* `Orders/summarize_order_info_windows_polars.py` — multi-window sales sums.
* `Orders/calculate_daily_weight_polars.py` — dynamic daily-sales estimator.
* `CreateStockFill.py` — per-tier and cumulative days of cover.
* `CreateFinance.py` — required-column check and channel share percentages.

Machine floats are modelled by `ℚ` (all literals in the source are exact
decimals); `float("inf")` is modelled by `Option ℚ` with `none` for infinity;
float columns that can hold NaN/±inf are modelled by the inductive `PFloat`;
nullable columns by `Option`. Python strings compare lexicographically by
code point, modelled by `pyStrLe`.
-/

namespace OzonSpec

/-- Python truthiness coercion `x or d` for an optional float `x`:
`None` and `0.0` are falsy and replaced by the default `d`. -/
def pyOrQ (x : Option ℚ) (d : ℚ) : ℚ :=
  match x with
  | none => d
  | some v => if v = 0 then d else v

/-- Lexicographic (code-point) order on character lists, as Python compares
strings. -/
def charListLe : List Char → List Char → Bool
  | [], _ => true
  | _ :: _, [] => false
  | a :: as, b :: bs =>
    if a.toNat < b.toNat then true
    else if b.toNat < a.toNat then false
    else charListLe as bs

/-- Python's `a <= b` on strings (code-point lexicographic order). -/
def pyStrLe (a b : String) : Bool := charListLe a.data b.data

/-! ## Polars scalar semantics (for `CreateStockFill.calcu_available_days`)

A float value that can be NaN or ±infinity, as produced by polars when a
column is divided by zero. -/

/-- IEEE-style float value classes relevant to the inventory pipeline. -/
inductive PFloat where
  | nan : PFloat
  | pinf : PFloat
  | ninf : PFloat
  | fin : ℚ → PFloat
deriving DecidableEq

/-- Polars float division of two finite column values: division by zero gives
±infinity (NaN for `0/0`), otherwise an exact quotient. -/
def pfDiv (q d : ℚ) : PFloat :=
  if d = 0 then
    (if q = 0 then PFloat.nan else if 0 < q then PFloat.pinf else PFloat.ninf)
  else PFloat.fin (q / d)

/-- Polars `fill_nan(v)` on a float value: replaces NaN only. -/
def pfFillNan (x : PFloat) (v : ℚ) : PFloat :=
  match x with
  | PFloat.nan => PFloat.fin v
  | y => y

/-- Rust/polars float→int cast truncates toward zero. -/
def ratTruncToInt (q : ℚ) : ℤ := if 0 ≤ q then ⌊q⌋ else ⌈q⌉

/-- Polars `cast(pl.Int64, strict=False)` on a float value: NaN and ±infinity
become null (`none`), finite values truncate toward zero. -/
def pfCastInt64 (x : PFloat) : Option ℤ :=
  match x with
  | PFloat.fin q => some (ratTruncToInt q)
  | _ => none

/-- Polars `fill_null(v)` on an integer column value. -/
def intFillNull (x : Option ℤ) (v : ℤ) : ℤ := x.getD v

/-- Polars `fill_nan(v)` applied to an *integer* column is a no-op: integer
dtypes cannot hold NaN, so nulls pass through unchanged. -/
def intFillNan (x : Option ℤ) (_ : ℤ) : Option ℤ := x

end OzonSpec

namespace Logisticscost1

open OzonSpec

/-- Source `default_hour_rules`: average delivery hours →
(base-fee coefficient, price percentage). -/
def default_hour_rules : List (ℤ × ℚ × ℚ) :=
  [(29, 1.00, 0.00), (30, 1.05, 0.25), (31, 1.11, 0.55), (32, 1.16, 0.80),
   (33, 1.23, 1.15), (34, 1.28, 1.40), (35, 1.32, 1.60), (36, 1.36, 1.80),
   (37, 1.40, 2.00), (38, 1.44, 2.20), (39, 1.48, 2.40), (40, 1.51, 2.55),
   (41, 1.54, 2.70), (42, 1.57, 2.85), (43, 1.60, 3.00), (44, 1.63, 3.15),
   (45, 1.66, 3.30), (46, 1.69, 3.45), (47, 1.71, 3.55), (48, 1.73, 3.65),
   (49, 1.75, 3.75), (50, 1.76, 3.80), (51, 1.77, 3.85), (52, 1.774, 3.87),
   (53, 1.78, 3.90), (54, 1.784, 3.92), (55, 1.788, 3.94), (56, 1.79, 3.95),
   (57, 1.792, 3.96), (58, 1.794, 3.97), (59, 1.796, 3.98), (60, 1.798, 3.99),
   (61, 1.80, 4.00)]

/-- Source `default_light_small_ids`: Ozon IDs billed a flat per-unit fee. -/
def default_light_small_ids : List String :=
  ["1701596112", "1774221575", "1774223800", "1794079622", "1795311329",
   "2272692781", "2369643012", "2371489844", "2382829229", "2383634361",
   "2383641082", "2383687594", "2423621133", "2423655359", "2423694063"]

/-- One base-fee bracket `(low, high, fee)`; `high = none` models
`float("inf")`. -/
structure Bracket where
  low : ℚ
  high : Option ℚ
  fee : ℚ
deriving DecidableEq

/-- Source `default_new_base_fee_brackets` (volumes in liters). -/
def default_new_base_fee_brackets : List Bracket :=
  [⟨0.0, some 0.2, 17⟩, ⟨0.201, some 0.4, 19⟩, ⟨0.401, some 0.6, 21⟩,
   ⟨0.601, some 0.8, 22⟩, ⟨0.801, some 1.0, 23⟩, ⟨1.001, some 1.25, 25⟩,
   ⟨1.251, some 1.5, 26⟩, ⟨1.501, some 1.75, 27⟩, ⟨1.751, some 2.0, 29⟩,
   ⟨2.001, some 3.0, 31⟩, ⟨3.001, some 4.0, 35⟩, ⟨4.001, some 5.0, 38⟩,
   ⟨5.001, some 6.0, 42⟩, ⟨6.001, some 7.0, 57⟩, ⟨7.001, some 8.0, 61⟩,
   ⟨8.001, some 9.0, 64⟩, ⟨9.001, some 10.0, 68⟩, ⟨10.001, some 11.0, 78⟩,
   ⟨11.001, some 12.0, 82⟩, ⟨12.001, some 13.0, 86⟩, ⟨13.001, some 14.0, 91⟩,
   ⟨14.001, some 15.0, 95⟩, ⟨15.001, some 17.0, 100⟩, ⟨17.001, some 20.0, 109⟩,
   ⟨20.001, some 25.0, 117⟩, ⟨25.001, some 30.0, 129⟩, ⟨30.001, some 35.0, 144⟩,
   ⟨35.001, some 40.0, 154⟩, ⟨40.001, some 45.0, 173⟩, ⟨45.001, some 50.0, 186⟩,
   ⟨50.001, some 60.0, 204⟩, ⟨60.001, some 70.0, 227⟩, ⟨70.001, some 80.0, 245⟩,
   ⟨80.001, some 90.0, 270⟩, ⟨90.001, some 100.0, 280⟩,
   ⟨100.001, some 125.0, 326⟩, ⟨125.001, some 150.0, 375⟩,
   ⟨150.001, some 175.0, 429⟩, ⟨175.001, some 190.0, 476⟩, ⟨190.001, none, 792⟩]

/-- The engine's epsilon tolerance `1e-9`. -/
def eps : ℚ := 1e-9

/-- Test of the source: `(v + 1e-9) >= low and (v - 1e-9) <= high`, with
`high = none` (infinity) always satisfying the upper test. -/
def bracketMatches (v : ℚ) (b : Bracket) : Bool :=
  decide (b.low ≤ v + eps) &&
    (match b.high with
     | some h => decide (v - eps ≤ h)
     | none => true)

/-- Number of brackets matching a volume (used to state bracket coverage). -/
def matchCount (v : ℚ) (bs : List Bracket) : ℕ :=
  (bs.filter (bracketMatches v)).length

/-- Source `new_base_fee_by_volume`: first matching bracket's fee; if no
bracket matches, the last bracket's fee (0 on an empty table). -/
def new_base_fee_by_volume (volume_liters : Option ℚ) (brackets : List Bracket) : ℚ :=
  let v := max (pyOrQ volume_liters 0) 0
  match brackets.find? (bracketMatches v) with
  | some b => b.fee
  | none => ((brackets.getLast?).map Bracket.fee).getD 0

/-- Source `coeff_and_pct_for_hours`: clamp the hour into the table's key
range, then look it up. -/
def coeff_and_pct_for_hours (hour_rules : List (ℤ × ℚ × ℚ)) (avg_delivery_hours : ℤ) : ℚ × ℚ :=
  let keys := hour_rules.map (fun p => p.1)
  let lo := keys.min?.getD 0
  let hi := keys.max?.getD 0
  let h := max (min avg_delivery_hours hi) lo
  match hour_rules.find? (fun p => p.1 == h) with
  | some p => (p.2.1, p.2.2)
  | none => (0, 0)

/-- Source `compute_fallback_logistics_fee`. `volume_liters` is optional to
model the Python `volume_liters or 1.0` falsiness coercion (`None` and `0.0`
both default to 1.0). -/
def compute_fallback_logistics_fee (shipped_amount : ℚ) (volume_liters : Option ℚ)
    (avg_delivery_hours : ℤ) (order_date_ymd : String) (rule_mode : String)
    (rule_boundary_date_ymd : String) (hour_rules : List (ℤ × ℚ × ℚ))
    (new_base_fee_brackets : List Bracket) (old_base_1l old_extra_per_l : ℚ) : ℚ :=
  let cp := coeff_and_pct_for_hours hour_rules avg_delivery_hours
  let vol := max (pyOrQ volume_liters 1) 0
  let use_new : Bool :=
    if rule_mode = "new" then true
    else if rule_mode = "old" then false
    else (order_date_ymd != "") && pyStrLe rule_boundary_date_ymd order_date_ymd
  let base :=
    if use_new then new_base_fee_by_volume (some vol) new_base_fee_brackets
    else old_base_1l + old_extra_per_l * ((max 0 ⌈vol - 1⌉ : ℤ) : ℚ)
  base * cp.1 + shipped_amount * (cp.2 / 100)

/-- Source `build_grouped_df`, step 5 (the per-row `物流费_row` expression):
light-small SKUs get `quantity × flat fee`; otherwise a non-null positive
recorded `Логистика` is used verbatim; otherwise the rule-based fallback. -/
def logistics_fee_row (light_small_ids : List String) (light_small_fee_per_unit : ℚ)
    (rule_mode rule_boundary_date_ymd : String) (hour_rules : List (ℤ × ℚ × ℚ))
    (brackets : List Bracket) (ozon_id : String) (qty : ℤ) (shipped_amount : ℚ)
    (volume_liters : ℚ) (avg_hours : ℤ) (date : String) (logistika : Option ℚ) : ℚ :=
  if ozon_id ∈ light_small_ids then (qty : ℚ) * light_small_fee_per_unit
  else
    match logistika with
    | some l =>
      if 0 < l then l
      else compute_fallback_logistics_fee shipped_amount (some volume_liters)
        avg_hours date rule_mode rule_boundary_date_ymd hour_rules brackets 46 10
    | none => compute_fallback_logistics_fee shipped_amount (some volume_liters)
        avg_hours date rule_mode rule_boundary_date_ymd hour_rules brackets 46 10

/-! Millilitre-grid view of the default bracket table, used to settle the
bracket-coverage claim: every bound in the source table is an exact multiple
of 0.001 L. -/

/-- A bracket with millilitre-integer bounds. -/
def NatBr : Type := ℕ × Option ℕ × ℚ

/-- The default bracket table with bounds in millilitres. -/
def milliBrackets : List NatBr :=
  [(0, some 200, 17), (201, some 400, 19), (401, some 600, 21),
   (601, some 800, 22), (801, some 1000, 23), (1001, some 1250, 25),
   (1251, some 1500, 26), (1501, some 1750, 27), (1751, some 2000, 29),
   (2001, some 3000, 31), (3001, some 4000, 35), (4001, some 5000, 38),
   (5001, some 6000, 42), (6001, some 7000, 57), (7001, some 8000, 61),
   (8001, some 9000, 64), (9001, some 10000, 68), (10001, some 11000, 78),
   (11001, some 12000, 82), (12001, some 13000, 86), (13001, some 14000, 91),
   (14001, some 15000, 95), (15001, some 17000, 100), (17001, some 20000, 109),
   (20001, some 25000, 117), (25001, some 30000, 129), (30001, some 35000, 144),
   (35001, some 40000, 154), (40001, some 45000, 173), (45001, some 50000, 186),
   (50001, some 60000, 204), (60001, some 70000, 227), (70001, some 80000, 245),
   (80001, some 90000, 270), (90001, some 100000, 280),
   (100001, some 125000, 326), (125001, some 150000, 375),
   (150001, some 175000, 429), (175001, some 190000, 476),
   (190001, none, 792)]

/-- Convert a millilitre bracket back to the litre table entry. -/
def toBracket (p : NatBr) : Bracket :=
  ⟨(p.1 : ℚ) / 1000, Option.map (fun b : ℕ => (b : ℚ) / 1000) p.2.1, p.2.2⟩

/-- Whether millilitre count `n` lies in bracket `p` (plain inclusive
bounds, no epsilon). -/
def natMatches (n : ℕ) (p : NatBr) : Bool :=
  decide (p.1 ≤ n) &&
    (match p.2.1 with
     | some b => decide (n ≤ b)
     | none => true)

/-- Check that a millilitre bracket list tiles `[a, ∞)` seamlessly: the first
lower bound is `a`, each finite bracket is non-empty and is followed by a
bracket starting one millilitre higher, and the final bracket is unbounded. -/
def tilesB : ℕ → List NatBr → Bool
  | _, [] => false
  | a, p :: rest =>
    decide (p.1 = a) &&
      (match p.2.1, rest with
       | none, [] => true
       | none, _ :: _ => false
       | some b, rest' => decide (a ≤ b) && tilesB (b + 1) rest')

end Logisticscost1

namespace SummarizeOrderWindows

/-- One order document after Mongo's `$dateFromString` stage:
`proc_time` is the parsed processing timestamp in milliseconds (`none` for an
unparseable date string), `qty` the `$toDouble` of the aggregation field, and
`group_key` the `$group` key (the tuple of grouping-field values). -/
structure OrderRec where
  proc_time : Option ℤ
  qty : ℚ
  group_key : String

/-- Milliseconds per day (`datetime.timedelta(days=1)`). -/
def msPerDay : ℤ := 86400000

/-- Start of the `w`-day window ending on the reference day:
`target - (w - 1) days`. -/
def windowStart (target : ℤ) (w : ℕ) : ℤ := target - ((w : ℤ) - 1) * msPerDay

/-- `max(windows)`. -/
def maxWindow (windows : List ℕ) : ℕ := windows.foldr max 0

/-- The `$match` stage: the record parsed to a timestamp inside the half-open
range `[target - (max_window - 1) days, target + 1 day)`; null timestamps are
dropped. -/
def inMatchRange (target : ℤ) (maxW : ℕ) (r : OrderRec) : Bool :=
  match r.proc_time with
  | none => false
  | some t => decide (windowStart target maxW ≤ t) && decide (t < target + msPerDay)

/-- The `$gte` test of the `$cond` expression: the record's parsed timestamp
is at or after the window start (false on a null timestamp). -/
def afterStart (target : ℤ) (w : ℕ) (r : OrderRec) : Bool :=
  match r.proc_time with
  | some t => decide (windowStart target w ≤ t)
  | none => false

/-- The `$group` stage's conditional sum `sum_w` for group `g`: add the
quantity when the record belongs to the group and its timestamp is at or
after the window start, else add 0. -/
def window_sum (target : ℤ) (w : ℕ) (g : String) (recs : List OrderRec) : ℚ :=
  (recs.map (fun r =>
    if r.group_key = g ∧ afterStart target w r then r.qty else 0)).sum

/-- Source `summarize_order_windows`: the `sum_<w>` value for group `g`
(the `$match` stage restricted to the largest window feeds every window's
conditional sum). -/
def sum_quantity (target : ℤ) (windows : List ℕ) (w : ℕ) (g : String)
    (recs : List OrderRec) : ℚ :=
  window_sum target w g (recs.filter (inMatchRange target (maxWindow windows)))

end SummarizeOrderWindows

namespace CalculateDailyWeight

/-- Per-window implied daily rate `float(sum_val) / float(w)` from source
`calculate_dynamic_daily_sales`; a division by a zero window raises
`ZeroDivisionError`, caught and replaced by `0.0`, which coincides with the
`ℚ` convention `q / 0 = 0`. -/
def avgRate (sums : ℕ → ℚ) (w : ℕ) : ℚ := sums w / (w : ℚ)

/-- Stable descending insertion used to model Python's stable
`sorted(..., reverse=True)`: an element is placed before the first element
whose key is not larger, so earlier elements win ties. -/
def insertDesc (f : ℕ → ℚ) (w : ℕ) : List ℕ → List ℕ
  | [] => [w]
  | x :: xs => if f x ≤ f w then w :: x :: xs else x :: insertDesc f w xs

/-- Python's `sorted(windows, key=avg_daily, reverse=True)` (stable). -/
def sortDesc (f : ℕ → ℚ) (l : List ℕ) : List ℕ := l.foldr (insertDesc f) []

/-- Source: `top_windows = sorted_windows[:min(top_k, len(sorted_windows))]`. -/
def topWindows (f : ℕ → ℚ) (l : List ℕ) (k : ℕ) : List ℕ := (sortDesc f l).take k

/-- Source: `total_top_avg = sum(avg_daily[w] for w in top_windows)`. -/
def totalTopAvg (f : ℕ → ℚ) (l : List ℕ) (k : ℕ) : ℚ :=
  ((topWindows f l k).map f).sum

/-- Source weight assignment: `avg_daily[w] / total_top_avg` when
`total_top_avg > 0 and w in top_windows`, else `0.0`. -/
def weightOf (f : ℕ → ℚ) (l : List ℕ) (k : ℕ) (w : ℕ) : ℚ :=
  if 0 < totalTopAvg f l k ∧ w ∈ topWindows f l k then f w / totalTopAvg f l k
  else 0

/-- Sum of the derived weights over the configured windows. -/
def sumWeights (f : ℕ → ℚ) (l : List ℕ) (k : ℕ) : ℚ :=
  (l.map (weightOf f l k)).sum

/-- Source: `daily_sales = Σ (float(sum_val)/float(w)) * weights[w]`. -/
def daily_sales (sums : ℕ → ℚ) (l : List ℕ) (k : ℕ) : ℚ :=
  (l.map (fun w => avgRate sums w * weightOf (avgRate sums) l k w)).sum

end CalculateDailyWeight

namespace CreateStockFill

open OzonSpec

/-- Source `calcu_available_days`, standard tier pipeline:
`(qty / daily_sales).fill_nan(0.0).cast(pl.Int64, strict=False).fill_null(0)`
(FBO shelf, FBO cross-dock, overseas, 7-day, inbound-slow, local and
purchased-in-transit tiers). -/
def tier_available_days (qty daily_sales : ℚ) : ℤ :=
  intFillNull (pfCastInt64 (pfFillNan (pfDiv qty daily_sales) 0)) 0

/-- Source `calcu_available_days`, inbound-fast (`普快`) tier pipeline, which
ends in `.fill_nan(0)` instead of `.fill_null(0)` after the integer cast:
`(qty / daily_sales).fill_nan(0.0).cast(pl.Int64, strict=False).fill_nan(0)`.
The result is a nullable integer. -/
def fast_tier_available_days (qty daily_sales : ℚ) : Option ℤ :=
  intFillNan (pfCastInt64 (pfFillNan (pfDiv qty daily_sales) 0)) 0

/-- Source `calculate_cumulative_days` inner loop: from the second column on,
each column becomes itself plus the (already updated) previous column. -/
def cumAux (prev : ℤ) : List ℤ → List ℤ
  | [] => []
  | x :: xs => (x + prev) :: cumAux (x + prev) xs

/-- Source `calculate_cumulative_days`: the first column is kept, each later
column accumulates the previous cumulative value. -/
def calculate_cumulative_days : List ℤ → List ℤ
  | [] => []
  | v :: rest => v :: cumAux v rest

end CreateStockFill

namespace CreateFinance

/-- Rust `f64::round` (used by polars `Expr.round`): round half away from
zero. -/
def roundHalfAway (q : ℚ) : ℤ := if 0 ≤ q then ⌊q + 1 / 2⌋ else ⌈q - 1 / 2⌉

/-- Polars `.round(2)`: two-decimal rounding, half away from zero. -/
def round2 (q : ℚ) : ℚ := (roundHalfAway (q * 100) : ℚ) / 100

/-- Source `finance_write2feishu`, step 9: template-channel quantity is
`mb_orders + mb_models`. -/
def template_sales (mb_orders mb_models : ℤ) : ℤ := mb_orders + mb_models

/-- Source `finance_write2feishu`, step 9: natural quantity is the residual
`total − template − search`. -/
def natural_sales (total template search : ℤ) : ℤ := total - template - search

/-- Source `finance_write2feishu`, step 12: a channel's share percentage,
`part / total * 100` rounded to 2 decimals when `total > 0`, else `0.00`. -/
def share_pct (part total : ℤ) : ℚ :=
  if 0 < total then round2 ((part : ℚ) / (total : ℚ) * 100) else 0

/-- Source `finance_write2feishu`, step 9: the fixed required-column set. -/
def need_cols : List String := ["数量", "mb_orders", "mb_models", "op_orders"]

/-- Source `finance_write2feishu`, step 9: collect the required columns absent
from the frame and raise `KeyError` naming them, else proceed. -/
def check_required_columns (cols : List String) : Except (List String) Unit :=
  let missing := need_cols.filter (fun c => !(cols.contains c))
  if missing.isEmpty then Except.ok () else Except.error missing

end CreateFinance

/-! ## Helper lemmas -/

namespace OzonSpec

lemma pyOrQ_some_ne_zero {v d : ℚ} (h : v ≠ 0) : pyOrQ (some v) d = v := by
  simp [pyOrQ, h]

end OzonSpec

namespace Logisticscost1

lemma new_base_fee_head (volume : Option ℚ) (b : Bracket) (bs : List Bracket)
    (h : bracketMatches (max (OzonSpec.pyOrQ volume 0) 0) b = true) :
    new_base_fee_by_volume volume (b :: bs) = b.fee := by
  have hf : (b :: bs).find? (bracketMatches (max (OzonSpec.pyOrQ volume 0) 0)) = some b :=
    List.find?_cons_of_pos _ h
  simp [new_base_fee_by_volume, hf]

end Logisticscost1

namespace SummarizeOrderWindows

lemma windowStart_anti {target : ℤ} {w1 w2 : ℕ} (h : w1 ≤ w2) :
    windowStart target w2 ≤ windowStart target w1 := by
  unfold windowStart msPerDay
  have h1 : ((w1 : ℤ) - 1) * 86400000 ≤ ((w2 : ℤ) - 1) * 86400000 := by
    have : (w1 : ℤ) ≤ (w2 : ℤ) := by exact_mod_cast h
    nlinarith
  linarith

lemma afterStart_mono {target : ℤ} {w1 w2 : ℕ} (h : w1 ≤ w2) (r : OrderRec)
    (h1 : afterStart target w1 r = true) : afterStart target w2 r = true := by
  unfold afterStart at h1 ⊢
  cases hp : r.proc_time with
  | none => rw [hp] at h1; exact absurd h1 (by simp)
  | some t =>
    rw [hp] at h1
    simp only [decide_eq_true_eq] at h1 ⊢
    exact le_trans (windowStart_anti h) h1

lemma window_sum_mono (target : ℤ) (w1 w2 : ℕ) (g : String)
    (recs : List OrderRec) (hw : w1 ≤ w2) (hq : ∀ r ∈ recs, 0 ≤ r.qty) :
    window_sum target w1 g recs ≤ window_sum target w2 g recs := by
  unfold window_sum
  induction recs with
  | nil => simp
  | cons r rest ih =>
    simp only [List.map_cons, List.sum_cons]
    have hr : 0 ≤ r.qty := hq r (List.mem_cons_self r rest)
    have htl := ih (fun x hx => hq x (List.mem_cons_of_mem r hx))
    have hhd : (if r.group_key = g ∧ afterStart target w1 r then r.qty else 0)
        ≤ (if r.group_key = g ∧ afterStart target w2 r then r.qty else 0) := by
      by_cases h1 : r.group_key = g ∧ afterStart target w1 r
      · rw [if_pos h1, if_pos ⟨h1.1, afterStart_mono hw r h1.2⟩]
      · rw [if_neg h1]
        by_cases h2 : r.group_key = g ∧ afterStart target w2 r
        · rw [if_pos h2]; exact hr
        · rw [if_neg h2]
    exact add_le_add hhd htl

end SummarizeOrderWindows

namespace CreateStockFill

lemma chain_cumAux (l : List ℤ) (prev : ℤ) (h0 : ∀ x ∈ l, 0 ≤ x) :
    List.Chain (· ≤ ·) prev (cumAux prev l) := by
  induction l generalizing prev with
  | nil => exact List.Chain.nil
  | cons x xs ih =>
    refine List.Chain.cons ?_ (ih (x + prev) (fun y hy => h0 y (List.mem_cons_of_mem x hy)))
    have : 0 ≤ x := h0 x (List.mem_cons_self x xs)
    linarith

lemma cumulative_chain (vals : List ℤ) (h0 : ∀ x ∈ vals, 0 ≤ x) :
    List.Chain' (· ≤ ·) (calculate_cumulative_days vals) := by
  cases vals with
  | nil => simp [calculate_cumulative_days]
  | cons v rest =>
    exact chain_cumAux rest v (fun x hx => h0 x (List.mem_cons_of_mem v hx))

end CreateStockFill

/-! ## Claim theorems -/

open OzonSpec

/-- Claim C1: for every order line, exactly one of the three fee paths is
taken, in priority order — a light-small SKU gets `quantity × flat fee`
regardless of volume, recorded cost or delivery hours; otherwise a recorded
positive actual cost is used verbatim; otherwise the rule-based fallback. -/
theorem C1_fee_path_priority (ids : List String) (flat : ℚ) (mode bdate : String)
    (rules : List (ℤ × ℚ × ℚ)) (brackets : List Logisticscost1.Bracket)
    (ozon_id : String) (qty : ℤ) (amount vol : ℚ) (hours : ℤ) (date : String)
    (logistika : Option ℚ) :
    (ozon_id ∈ ids →
      Logisticscost1.logistics_fee_row ids flat mode bdate rules brackets
        ozon_id qty amount vol hours date logistika = (qty : ℚ) * flat)
    ∧ (ozon_id ∉ ids → ∀ c, logistika = some c → 0 < c →
      Logisticscost1.logistics_fee_row ids flat mode bdate rules brackets
        ozon_id qty amount vol hours date logistika = c)
    ∧ (ozon_id ∉ ids → (logistika = none ∨ ∃ c, logistika = some c ∧ c ≤ 0) →
      Logisticscost1.logistics_fee_row ids flat mode bdate rules brackets
        ozon_id qty amount vol hours date logistika
      = Logisticscost1.compute_fallback_logistics_fee amount (some vol) hours
          date mode bdate rules brackets 46 10) := by
  refine ⟨fun h => ?_, fun h c hc hpos => ?_, fun h hlog => ?_⟩
  · simp [Logisticscost1.logistics_fee_row, h]
  · simp [Logisticscost1.logistics_fee_row, h, hc, hpos]
  · rcases hlog with hnone | ⟨c, hc, hle⟩
    · simp [Logisticscost1.logistics_fee_row, h, hnone]
    · simp [Logisticscost1.logistics_fee_row, h, hc, not_lt.mpr hle]

/-- Closed instance of C1: a light-small SKU with a recorded positive cost
still gets the flat fee. -/
theorem C1_fee_path_priority_witness :
    "1701596112" ∈ Logisticscost1.default_light_small_ids ∧
    Logisticscost1.logistics_fee_row Logisticscost1.default_light_small_ids 11
      "auto" "2025-09-01" Logisticscost1.default_hour_rules
      Logisticscost1.default_new_base_fee_brackets "1701596112" 3 500 2.5 31
      "2025-08-21" (some 99) = (3 : ℚ) * 11 :=
  ⟨by decide,
    (C1_fee_path_priority Logisticscost1.default_light_small_ids 11 "auto"
      "2025-09-01" Logisticscost1.default_hour_rules
      Logisticscost1.default_new_base_fee_brackets "1701596112" 3 500 2.5 31
      "2025-08-21" (some 99)).1 (by decide)⟩

/-- Claim C3 (code bug): the standard tier pipeline yields exactly 0 whenever
`daily_sales = 0`, but the inbound-fast tier pipeline — whose final step is
`fill_nan(0)` on an integer column, a no-op — yields null (`none`), not 0,
when its quantity is positive and `daily_sales = 0`. -/
theorem C3_division_safety :
    (∀ qty : ℚ, CreateStockFill.tier_available_days qty 0 = 0)
    ∧ CreateStockFill.fast_tier_available_days 1 0 = none := by
  constructor
  · intro qty
    unfold CreateStockFill.tier_available_days pfDiv pfFillNan pfCastInt64
      intFillNull ratTruncToInt
    by_cases h0 : qty = 0
    · simp [h0]
    · by_cases hpos : 0 < qty <;> simp [h0, hpos]
  · unfold CreateStockFill.fast_tier_available_days pfDiv pfFillNan pfCastInt64
      intFillNan
    norm_num

/-- Claim C4: with both windows' ranges ending on the same reference day and
all aggregated quantities non-negative, the smaller window's conditional sum
is at most the larger window's. -/
theorem C4_window_monotonicity (target : ℤ) (windows : List ℕ) (w1 w2 : ℕ)
    (g : String) (recs : List SummarizeOrderWindows.OrderRec) (hw : w1 ≤ w2)
    (hq : ∀ r ∈ recs, 0 ≤ r.qty) :
    SummarizeOrderWindows.sum_quantity target windows w1 g recs
      ≤ SummarizeOrderWindows.sum_quantity target windows w2 g recs := by
  unfold SummarizeOrderWindows.sum_quantity
  exact SummarizeOrderWindows.window_sum_mono target w1 w2 g _ hw
    (fun r hr => hq r (List.mem_of_mem_filter hr))

/-- Closed instance of C4 at a 7-day vs 28-day window over one record. -/
theorem C4_window_monotonicity_witness :
    (7 : ℕ) ≤ 28 ∧
    SummarizeOrderWindows.sum_quantity 0 [7, 28] 7 "a"
        [⟨some 0, 5, "a"⟩] ≤
      SummarizeOrderWindows.sum_quantity 0 [7, 28] 28 "a" [⟨some 0, 5, "a"⟩] :=
  ⟨by decide,
    C4_window_monotonicity 0 [7, 28] 7 28 "a" [⟨some 0, 5, "a"⟩] (by decide)
      (by intro r hr; rw [List.mem_singleton] at hr; rw [hr]; norm_num)⟩

/-- Claim C7: after the cumulative days-of-cover computation, each cumulative
column is at least the immediately preceding one, provided every individual
tier value is non-negative. -/
theorem C7_cumulative_monotone (vals : List ℤ) (h0 : ∀ x ∈ vals, 0 ≤ x)
    (i : ℕ) (hi : i + 1 < (CreateStockFill.calculate_cumulative_days vals).length) :
    (CreateStockFill.calculate_cumulative_days vals).get ⟨i, Nat.lt_of_succ_lt hi⟩
      ≤ (CreateStockFill.calculate_cumulative_days vals).get ⟨i + 1, hi⟩ := by
  have hc := CreateStockFill.cumulative_chain vals h0
  have := List.chain'_iff_get.mp hc i (by omega)
  exact this

/-- Closed instance of C7 on the tier list `[1, 2]`. -/
theorem C7_cumulative_monotone_witness :
    (∀ x ∈ ([1, 2] : List ℤ), 0 ≤ x) ∧
    (CreateStockFill.calculate_cumulative_days [1, 2]).get ⟨0, by decide⟩
      ≤ (CreateStockFill.calculate_cumulative_days [1, 2]).get ⟨1, by decide⟩ :=
  ⟨by decide, C7_cumulative_monotone [1, 2] (by decide) 0 (by decide)⟩

/-- Claim C8: each channel share percentage is the channel-attributed
quantity over total quantity times 100 rounded to 2 decimals, 0 when the
total is 0, natural quantity being the residual; the concrete scenario
100/30/20 gives 50%, 30%, 20% summing to 100%. -/
theorem C8_channel_shares :
    (∀ qty mb mbm op : ℤ,
      (0 < qty →
        (CreateFinance.share_pct
            (CreateFinance.natural_sales qty (CreateFinance.template_sales mb mbm) op) qty,
         CreateFinance.share_pct (CreateFinance.template_sales mb mbm) qty,
         CreateFinance.share_pct op qty)
        = (CreateFinance.round2 (((qty - (mb + mbm) - op : ℤ) : ℚ) / (qty : ℚ) * 100),
           CreateFinance.round2 (((mb + mbm : ℤ) : ℚ) / (qty : ℚ) * 100),
           CreateFinance.round2 ((op : ℚ) / (qty : ℚ) * 100)))
      ∧ (qty = 0 →
        (CreateFinance.share_pct
            (CreateFinance.natural_sales qty (CreateFinance.template_sales mb mbm) op) qty,
         CreateFinance.share_pct (CreateFinance.template_sales mb mbm) qty,
         CreateFinance.share_pct op qty) = (0, 0, 0)))
    ∧ CreateFinance.share_pct
        (CreateFinance.natural_sales 100 (CreateFinance.template_sales 30 0) 20) 100 = 50
    ∧ CreateFinance.share_pct (CreateFinance.template_sales 30 0) 100 = 30
    ∧ CreateFinance.share_pct 20 100 = 20
    ∧ CreateFinance.share_pct
          (CreateFinance.natural_sales 100 (CreateFinance.template_sales 30 0) 20) 100
        + CreateFinance.share_pct (CreateFinance.template_sales 30 0) 100
        + CreateFinance.share_pct 20 100 = 100 := by
  have hshare : ∀ p : ℤ, CreateFinance.share_pct p 100
      = CreateFinance.round2 ((p : ℚ) / 100 * 100) := by
    intro p
    simp [CreateFinance.share_pct]
  refine ⟨fun qty mb mbm op => ⟨fun hpos => ?_, fun hz => ?_⟩, ?_, ?_, ?_, ?_⟩
  · simp [CreateFinance.share_pct, CreateFinance.natural_sales,
      CreateFinance.template_sales, hpos]
  · simp [CreateFinance.share_pct, hz]
  · norm_num [CreateFinance.natural_sales, CreateFinance.template_sales,
      CreateFinance.share_pct, CreateFinance.round2, CreateFinance.roundHalfAway]
  · norm_num [CreateFinance.template_sales, CreateFinance.share_pct,
      CreateFinance.round2, CreateFinance.roundHalfAway]
  · norm_num [CreateFinance.share_pct, CreateFinance.round2,
      CreateFinance.roundHalfAway]
  · norm_num [CreateFinance.natural_sales, CreateFinance.template_sales,
      CreateFinance.share_pct, CreateFinance.round2, CreateFinance.roundHalfAway]

/-- Closed instance of C8's general part at total 1. -/
theorem C8_channel_shares_witness :
    (CreateFinance.share_pct
        (CreateFinance.natural_sales 1 (CreateFinance.template_sales 0 0) 0) 1,
     CreateFinance.share_pct (CreateFinance.template_sales 0 0) 1,
     CreateFinance.share_pct 0 1)
    = (CreateFinance.round2 (((1 - (0 + 0) - 0 : ℤ) : ℚ) / (1 : ℚ) * 100),
       CreateFinance.round2 (((0 + 0 : ℤ) : ℚ) / (1 : ℚ) * 100),
       CreateFinance.round2 ((0 : ℚ) / (1 : ℚ) * 100)) :=
  (C8_channel_shares.1 1 0 0 0).1 (by norm_num)

/-- Claim C9: the roll-up's required-column check fails with an error naming
exactly the absent members of the fixed required set, and passes when all
required columns are present. -/
theorem C9_required_columns (cols : List String) :
    ((∃ c ∈ CreateFinance.need_cols, c ∉ cols) →
      ∃ m, CreateFinance.check_required_columns cols = Except.error m ∧ m ≠ [] ∧
        ∀ c, (c ∈ m ↔ c ∈ CreateFinance.need_cols ∧ c ∉ cols))
    ∧ ((∀ c ∈ CreateFinance.need_cols, c ∈ cols) →
      CreateFinance.check_required_columns cols = Except.ok ()) := by
  have hmem : ∀ c, c ∈ CreateFinance.need_cols.filter (fun c => !(cols.contains c))
      ↔ c ∈ CreateFinance.need_cols ∧ c ∉ cols := by
    intro c
    rw [List.mem_filter]
    simp
  constructor
  · rintro ⟨c, hc, hnc⟩
    have hne : CreateFinance.need_cols.filter (fun c => !(cols.contains c)) ≠ [] := by
      intro hnil
      have := (hmem c).mpr ⟨hc, hnc⟩
      rw [hnil] at this
      exact absurd this (List.not_mem_nil c)
    refine ⟨CreateFinance.need_cols.filter (fun c => !(cols.contains c)), ?_, hne, hmem⟩
    unfold CreateFinance.check_required_columns
    rw [if_neg]
    simpa [List.isEmpty_iff] using hne
  · intro hall
    unfold CreateFinance.check_required_columns
    rw [if_pos]
    rw [List.isEmpty_iff, List.filter_eq_nil_iff]
    intro c hc
    simp [hall c hc]

/-- Closed instance of C9 on an empty column list. -/
theorem C9_required_columns_witness :
    ∃ m, CreateFinance.check_required_columns [] = Except.error m ∧ m ≠ [] ∧
      ∀ c, (c ∈ m ↔ c ∈ CreateFinance.need_cols ∧ c ∉ ([] : List String)) :=
  (C9_required_columns []).1 ⟨"数量", by simp [CreateFinance.need_cols], by simp⟩

/-- Claim C10: in the rule-based fallback a volume of exactly 0.0 is treated
like a missing volume — the fee is computed as if the volume were 1.0 liter —
even though the standalone bracket lookup maps 0 to the first bracket
(fee 17). -/
theorem C10_zero_volume_fallback (amount : ℚ) (hours : ℤ) (date mode bdate : String)
    (rules : List (ℤ × ℚ × ℚ)) (brackets : List Logisticscost1.Bracket) :
    Logisticscost1.compute_fallback_logistics_fee amount (some 0) hours date mode
        bdate rules brackets 46 10
      = Logisticscost1.compute_fallback_logistics_fee amount (some 1) hours date
        mode bdate rules brackets 46 10
    ∧ Logisticscost1.compute_fallback_logistics_fee amount none hours date mode
        bdate rules brackets 46 10
      = Logisticscost1.compute_fallback_logistics_fee amount (some 1) hours date
        mode bdate rules brackets 46 10
    ∧ Logisticscost1.new_base_fee_by_volume (some 0)
        Logisticscost1.default_new_base_fee_brackets = 17 := by
  refine ⟨?_, ?_, ?_⟩
  · unfold Logisticscost1.compute_fallback_logistics_fee
    norm_num [pyOrQ]
  · unfold Logisticscost1.compute_fallback_logistics_fee
    norm_num [pyOrQ]
  · have h1 : Logisticscost1.bracketMatches
        (max (pyOrQ (some 0) 0) 0) ⟨0.0, some 0.2, 17⟩ = true := by
      simp only [Logisticscost1.bracketMatches, Logisticscost1.eps, pyOrQ]
      norm_num
    have hexp : Logisticscost1.default_new_base_fee_brackets
        = ⟨0.0, some 0.2, 17⟩ :: Logisticscost1.default_new_base_fee_brackets.tail := rfl
    rw [hexp, Logisticscost1.new_base_fee_head _ _ _ h1]

/-- Claim C6: under `rule_mode="auto"` with boundary `2025-09-01`, an order
dated 2025-08-31 is billed on the old schedule (base 46 for a volume in
(0, 1] liter) and an order dated 2025-09-01 on the new schedule (base 17,
the first bracket's fee, for a volume in (0, 0.2] liters). -/
theorem C6_schedule_boundary (amount vol : ℚ) (hours : ℤ) :
    (0 < vol → vol ≤ 1 →
      Logisticscost1.compute_fallback_logistics_fee amount (some vol) hours
          "2025-08-31" "auto" "2025-09-01" Logisticscost1.default_hour_rules
          Logisticscost1.default_new_base_fee_brackets 46 10
        = 46 * (Logisticscost1.coeff_and_pct_for_hours
              Logisticscost1.default_hour_rules hours).1
          + amount * ((Logisticscost1.coeff_and_pct_for_hours
              Logisticscost1.default_hour_rules hours).2 / 100))
    ∧ (0 < vol → vol ≤ 0.2 →
      Logisticscost1.compute_fallback_logistics_fee amount (some vol) hours
          "2025-09-01" "auto" "2025-09-01" Logisticscost1.default_hour_rules
          Logisticscost1.default_new_base_fee_brackets 46 10
        = 17 * (Logisticscost1.coeff_and_pct_for_hours
              Logisticscost1.default_hour_rules hours).1
          + amount * ((Logisticscost1.coeff_and_pct_for_hours
              Logisticscost1.default_hour_rules hours).2 / 100)) := by
  constructor
  · intro hpos hle
    have hvol : pyOrQ (some vol) 1 = vol := pyOrQ_some_ne_zero (ne_of_gt hpos)
    have hmax : max vol 0 = vol := max_eq_left (le_of_lt hpos)
    have hceil : ⌈vol - 1⌉ ≤ (0 : ℤ) := by
      rw [Int.ceil_le]
      push_cast
      linarith
    have hm0 : max 0 ⌈vol - 1⌉ = (0 : ℤ) := max_eq_left hceil
    have hs : pyStrLe "2025-09-01" "2025-08-31" = false := by decide
    have hm1 : ("auto" : String) ≠ "new" := by decide
    have hm2 : ("auto" : String) ≠ "old" := by decide
    simp only [Logisticscost1.compute_fallback_logistics_fee, hvol, hmax, hs, hm0,
      hm1, hm2]
    norm_num
  · intro hpos hle
    have hvol : pyOrQ (some vol) 1 = vol := pyOrQ_some_ne_zero (ne_of_gt hpos)
    have hvol0 : pyOrQ (some vol) 0 = vol := pyOrQ_some_ne_zero (ne_of_gt hpos)
    have hmax : max vol 0 = vol := max_eq_left (le_of_lt hpos)
    have hs : pyStrLe "2025-09-01" "2025-09-01" = true := by decide
    have h1 : Logisticscost1.bracketMatches (max (pyOrQ (some vol) 0) 0)
        ⟨0.0, some 0.2, 17⟩ = true := by
      rw [hvol0, hmax]
      simp only [Logisticscost1.bracketMatches, Logisticscost1.eps]
      have e1 : ((0.0 : ℚ) ≤ vol + 1e-9) := by norm_num; linarith
      have e2 : (vol - 1e-9 ≤ (0.2 : ℚ)) := by norm_num; linarith
      simp [e1, e2]
    have hexp : Logisticscost1.default_new_base_fee_brackets
        = ⟨0.0, some 0.2, 17⟩ :: Logisticscost1.default_new_base_fee_brackets.tail := rfl
    have hbase : Logisticscost1.new_base_fee_by_volume (some vol)
        Logisticscost1.default_new_base_fee_brackets = 17 := by
      rw [hexp, Logisticscost1.new_base_fee_head _ _ _ h1]
    have hm1 : ("auto" : String) ≠ "new" := by decide
    have hm2 : ("auto" : String) ≠ "old" := by decide
    have hne : ("2025-09-01" : String) ≠ "" := by decide
    simp only [Logisticscost1.compute_fallback_logistics_fee, hvol, hmax, hs, hbase,
      hm1, hm2, hne]
    norm_num
    exact fun h => absurd h hne

/-- Closed instance of C6 at volume 0.1 L. -/
theorem C6_schedule_boundary_witness :
    Logisticscost1.compute_fallback_logistics_fee 0 (some (1/10)) 30
        "2025-08-31" "auto" "2025-09-01" Logisticscost1.default_hour_rules
        Logisticscost1.default_new_base_fee_brackets 46 10
      = 46 * (Logisticscost1.coeff_and_pct_for_hours
            Logisticscost1.default_hour_rules 30).1
        + 0 * ((Logisticscost1.coeff_and_pct_for_hours
            Logisticscost1.default_hour_rules 30).2 / 100) :=
  (C6_schedule_boundary 0 (1/10) 30).1 (by norm_num) (by norm_num)

namespace CalculateDailyWeight

lemma insertDesc_perm (f : ℕ → ℚ) (w : ℕ) (l : List ℕ) :
    (insertDesc f w l).Perm (w :: l) := by
  induction l with
  | nil => exact List.Perm.refl _
  | cons x xs ih =>
    unfold insertDesc
    by_cases h : f x ≤ f w
    · rw [if_pos h]
    · rw [if_neg h]
      exact (ih.cons x).trans (List.Perm.swap w x xs)

lemma sortDesc_perm (f : ℕ → ℚ) (l : List ℕ) : (sortDesc f l).Perm l := by
  induction l with
  | nil => exact List.Perm.refl _
  | cons x xs ih =>
    exact (insertDesc_perm f x (sortDesc f xs)).trans (ih.cons x)

lemma topWindows_subset (f : ℕ → ℚ) (l : List ℕ) (k : ℕ) :
    ∀ x ∈ topWindows f l k, x ∈ l :=
  fun _ hx => (sortDesc_perm f l).subset (List.take_subset k (sortDesc f l) hx)

lemma list_sum_div (l : List ℚ) (c : ℚ) :
    (l.map (fun x => x / c)).sum = l.sum / c := by
  induction l with
  | nil => simp
  | cons x xs ih => simp [ih, add_div]

end CalculateDailyWeight

/-- Claim C5: for every group, the derived per-window weights sum to exactly
1 whenever the top-k implied daily rates are not all zero; when the top-k
rates sum to 0, every weight is 0 (windows outside the top k always get
weight 0) and `daily_sales` is 0. Implied rates are non-negative because the
summed quantities are. -/
theorem C5_weight_normalization (sums : ℕ → ℚ) (l : List ℕ) (k : ℕ)
    (hnd : l.Nodup)
    (hnn : ∀ w ∈ l, 0 ≤ CalculateDailyWeight.avgRate sums w) :
    ((∃ w ∈ CalculateDailyWeight.topWindows (CalculateDailyWeight.avgRate sums) l k,
        CalculateDailyWeight.avgRate sums w ≠ 0) →
      CalculateDailyWeight.sumWeights (CalculateDailyWeight.avgRate sums) l k = 1)
    ∧ (CalculateDailyWeight.totalTopAvg (CalculateDailyWeight.avgRate sums) l k = 0 →
      (∀ w, CalculateDailyWeight.weightOf (CalculateDailyWeight.avgRate sums) l k w = 0)
      ∧ CalculateDailyWeight.daily_sales sums l k = 0) := by
  set f := CalculateDailyWeight.avgRate sums with hf
  constructor
  · rintro ⟨w0, hw0top, hw0ne⟩
    set T := CalculateDailyWeight.topWindows f l k with hT
    set s := CalculateDailyWeight.sortDesc f l with hsrt
    have hsub : ∀ x ∈ T, x ∈ l := CalculateDailyWeight.topWindows_subset f l k
    have hnnT : ∀ x ∈ T.map f, 0 ≤ x := by
      intro x hx
      rcases List.mem_map.mp hx with ⟨w, hw, rfl⟩
      exact hnn w (hsub w hw)
    have hle : f w0 ≤ CalculateDailyWeight.totalTopAvg f l k :=
      List.single_le_sum hnnT _ (List.mem_map_of_mem f hw0top)
    have hpos : 0 < CalculateDailyWeight.totalTopAvg f l k :=
      lt_of_lt_of_le (lt_of_le_of_ne (hnn w0 (hsub w0 hw0top)) (Ne.symm hw0ne)) hle
    have hsnd : s.Nodup := ((CalculateDailyWeight.sortDesc_perm f l).nodup_iff).mpr hnd
    have hdisj : ∀ x ∈ s.drop k, x ∉ T := by
      intro x hx
      have hnd2 : (s.take k ++ s.drop k).Nodup := by
        rw [List.take_append_drop]; exact hsnd
      exact fun hxT => (List.nodup_append.mp hnd2).2.2 hxT hx
    have key : (l.map (fun w => if w ∈ T then f w else 0)).sum
        = CalculateDailyWeight.totalTopAvg f l k := by
      have hperm : ((l.map (fun w => if w ∈ T then f w else 0)).Perm
          (s.map (fun w => if w ∈ T then f w else 0))) :=
        ((CalculateDailyWeight.sortDesc_perm f l).symm).map _
      rw [hperm.sum_eq]
      have hsplit : s = s.take k ++ s.drop k := (List.take_append_drop k s).symm
      calc (s.map (fun w => if w ∈ T then f w else 0)).sum
          = ((s.take k ++ s.drop k).map (fun w => if w ∈ T then f w else 0)).sum := by
            rw [← hsplit]
        _ = ((s.take k).map (fun w => if w ∈ T then f w else 0)).sum
            + ((s.drop k).map (fun w => if w ∈ T then f w else 0)).sum := by
            rw [List.map_append, List.sum_append]
        _ = ((s.take k).map f).sum + 0 := by
            have e1 : (s.take k).map (fun w => if w ∈ T then f w else 0)
                = (s.take k).map f := by
              apply List.map_congr_left
              intro x hx
              rw [if_pos (show x ∈ T from hx)]
            have e2 : ((s.drop k).map (fun w => if w ∈ T then f w else 0)).sum = 0 := by
              apply List.sum_eq_zero
              intro x hx
              rcases List.mem_map.mp hx with ⟨w, hw, rfl⟩
              rw [if_neg (hdisj w hw)]
            rw [e1, e2]
        _ = CalculateDailyWeight.totalTopAvg f l k := by
            rw [add_zero]
            rfl
    have hw : l.map (CalculateDailyWeight.weightOf f l k)
        = l.map (fun w => (if w ∈ T then f w else 0)
            / CalculateDailyWeight.totalTopAvg f l k) := by
      apply List.map_congr_left
      intro x hx
      unfold CalculateDailyWeight.weightOf
      by_cases hxT : x ∈ T
      · rw [if_pos ⟨hpos, hxT⟩, if_pos hxT]
      · rw [if_neg (by exact fun hc => hxT hc.2), if_neg hxT, zero_div]
    unfold CalculateDailyWeight.sumWeights
    rw [hw]
    have : l.map (fun w => (if w ∈ T then f w else 0)
        / CalculateDailyWeight.totalTopAvg f l k)
        = (l.map (fun w => if w ∈ T then f w else 0)).map
            (fun x => x / CalculateDailyWeight.totalTopAvg f l k) := by
      rw [List.map_map]
      rfl
    rw [this, CalculateDailyWeight.list_sum_div, key]
    exact div_self (ne_of_gt hpos)
  · intro h0
    have hwz : ∀ w, CalculateDailyWeight.weightOf f l k w = 0 := by
      intro w
      unfold CalculateDailyWeight.weightOf
      rw [if_neg]
      rintro ⟨hpos, -⟩
      rw [h0] at hpos
      exact lt_irrefl 0 hpos
    refine ⟨hwz, ?_⟩
    unfold CalculateDailyWeight.daily_sales
    apply List.sum_eq_zero
    intro x hx
    rcases List.mem_map.mp hx with ⟨w, hw, rfl⟩
    rw [← hf, hwz w, mul_zero]

/-- Closed instance of C5 over the single window 7 with constant sums 7. -/
theorem C5_weight_normalization_witness :
    CalculateDailyWeight.sumWeights
      (CalculateDailyWeight.avgRate (fun _ => 7)) [7] 3 = 1 :=
  (C5_weight_normalization (fun _ => 7) [7] 3 (by decide)
      (by
        intro w hw
        rw [List.mem_singleton] at hw
        rw [hw]
        norm_num [CalculateDailyWeight.avgRate])).1
    ⟨7, by simp [CalculateDailyWeight.topWindows, CalculateDailyWeight.sortDesc,
        CalculateDailyWeight.insertDesc],
      by norm_num [CalculateDailyWeight.avgRate]⟩

namespace OzonSpec

lemma pyOrQ_some_zero (x : ℚ) : pyOrQ (some x) 0 = x := by
  by_cases h : x = 0
  · simp [pyOrQ, h]
  · simp [pyOrQ, h]

end OzonSpec

namespace Logisticscost1

lemma eps_eq : eps = 1 / 1000000000 := by norm_num [eps]

lemma grid_low_iff (a n : ℕ) : ((a : ℚ) / 1000 ≤ (n : ℚ) / 1000 + eps) ↔ a ≤ n := by
  rw [eps_eq]
  constructor
  · intro h
    by_contra hc
    push_neg at hc
    have hc2 : (n : ℚ) + 1 ≤ (a : ℚ) := by exact_mod_cast hc
    linarith
  · intro h
    have h2 : (a : ℚ) ≤ (n : ℚ) := by exact_mod_cast h
    linarith

lemma grid_high_iff (b n : ℕ) : ((n : ℚ) / 1000 - eps ≤ (b : ℚ) / 1000) ↔ n ≤ b := by
  rw [eps_eq]
  constructor
  · intro h
    by_contra hc
    push_neg at hc
    have hc2 : (b : ℚ) + 1 ≤ (n : ℚ) := by exact_mod_cast hc
    linarith
  · intro h
    have h2 : (n : ℚ) ≤ (b : ℚ) := by exact_mod_cast h
    linarith

lemma grid_match (n : ℕ) (p : NatBr) :
    bracketMatches ((n : ℚ) / 1000) (toBracket p) = natMatches n p := by
  rcases p with ⟨a, hb, fee⟩
  cases hb with
  | none =>
    simp only [bracketMatches, natMatches, toBracket, Option.map_none']
    rw [decide_eq_decide.mpr (grid_low_iff a n)]
  | some b =>
    simp only [bracketMatches, natMatches, toBracket, Option.map_some']
    rw [decide_eq_decide.mpr (grid_low_iff a n),
      decide_eq_decide.mpr (grid_high_iff b n)]

lemma tiles_lows (l : List NatBr) : ∀ a : ℕ, tilesB a l = true → ∀ p ∈ l, a ≤ p.1 := by
  induction l with
  | nil =>
    intro a _ p hp
    exact absurd hp (List.not_mem_nil p)
  | cons q rest ih =>
    intro a h p hp
    rcases q with ⟨lo, hb, fee⟩
    cases hb with
    | none =>
      cases rest with
      | nil =>
        simp only [tilesB, Bool.and_eq_true, decide_eq_true_eq] at h
        rcases List.mem_cons.mp hp with rfl | hp2
        · exact le_of_eq h.1.symm
        · exact absurd hp2 (List.not_mem_nil p)
      | cons r rs =>
        simp [tilesB] at h
    | some b =>
      simp only [tilesB, Bool.and_eq_true, decide_eq_true_eq] at h
      obtain ⟨h1, hab, ht⟩ := h
      rcases List.mem_cons.mp hp with rfl | hp2
      · exact le_of_eq h1.symm
      · have h2 := ih (b + 1) ht p hp2
        omega

lemma tiles_count (l : List NatBr) : ∀ a : ℕ, tilesB a l = true →
    ∀ n : ℕ, a ≤ n → (l.filter (natMatches n)).length = 1 := by
  induction l with
  | nil =>
    intro a h
    simp [tilesB] at h
  | cons q rest ih =>
    intro a h n han
    rcases q with ⟨lo, hb, fee⟩
    cases hb with
    | none =>
      cases rest with
      | nil =>
        simp only [tilesB, Bool.and_eq_true, decide_eq_true_eq] at h
        have hq : natMatches n (lo, none, fee) = true := by
          simp only [natMatches, Bool.and_eq_true, decide_eq_true_eq]
          exact ⟨by omega, trivial⟩
        rw [List.filter_cons_of_pos hq]
        simp
      | cons r rs =>
        simp [tilesB] at h
    | some b =>
      simp only [tilesB, Bool.and_eq_true, decide_eq_true_eq] at h
      obtain ⟨hlo, hab, ht⟩ := h
      by_cases hnb : n ≤ b
      · have hq : natMatches n (lo, some b, fee) = true := by
          simp only [natMatches, Bool.and_eq_true, decide_eq_true_eq]
          exact ⟨by omega, by simpa using hnb⟩
        rw [List.filter_cons_of_pos hq]
        have hrest : rest.filter (natMatches n) = [] := by
          rw [List.filter_eq_nil_iff]
          intro p hp
          have hge := tiles_lows rest (b + 1) ht p hp
          simp only [natMatches, Bool.and_eq_true, decide_eq_true_eq]
          rintro ⟨h1, -⟩
          omega
        rw [hrest]
        simp
      · have hq : natMatches n (lo, some b, fee) = false := by
          simp only [natMatches, Bool.and_eq_false_iff]
          right
          simpa using hnb
        rw [List.filter_cons_of_neg (by simp [hq])]
        exact ih (b + 1) ht n (by omega)

lemma brackets_eq_milli :
    default_new_base_fee_brackets = milliBrackets.map toBracket := by
  norm_num [default_new_base_fee_brackets, milliBrackets, toBracket]

lemma find?_eq_head_filter {α : Type} (p : α → Bool) (l : List α) :
    l.find? p = (l.filter p).head? := by
  induction l with
  | nil => rfl
  | cons a t ih =>
    by_cases h : p a = true
    · rw [List.find?_cons_of_pos t h, List.filter_cons_of_pos h]
      rfl
    · rw [List.find?_cons_of_neg t h, List.filter_cons_of_neg h, ih]

lemma new_base_fee_eq_find (volume : Option ℚ) (bs : List Bracket) :
    new_base_fee_by_volume volume bs
      = match bs.find? (bracketMatches (max (OzonSpec.pyOrQ volume 0) 0)) with
        | some b => b.fee
        | none => ((bs.getLast?).map Bracket.fee).getD 0 := rfl

lemma milli_tiles : tilesB 0 milliBrackets = true := by decide

lemma filter_grid_eq (m : ℕ) :
    default_new_base_fee_brackets.filter (bracketMatches ((m : ℚ) / 1000))
      = (milliBrackets.filter (natMatches m)).map toBracket := by
  rw [brackets_eq_milli, List.filter_map]
  congr 1
  apply List.filter_congr
  intro p _
  simpa using grid_match m p

end Logisticscost1

/-- Claim C2 counterexample: 0.2005 L lies in [0, 190] yet matches no
bracket of the default table under the epsilon-tolerant comparison (the
table's brackets leave 0.001 L gaps), and 190 + 10⁻¹⁰ L is strictly above
190 yet gets base fee 476 (the 39th bracket still matches within the
epsilon), not 792. -/
theorem C2_bracket_coverage_counterexample :
    ((0 : ℚ) ≤ 0.2005 ∧ (0.2005 : ℚ) ≤ 190
      ∧ Logisticscost1.matchCount 0.2005 Logisticscost1.default_new_base_fee_brackets = 0)
    ∧ (190 < (190.0000000001 : ℚ)
      ∧ Logisticscost1.new_base_fee_by_volume (some 190.0000000001)
          Logisticscost1.default_new_base_fee_brackets = 476) := by
  refine ⟨⟨by norm_num, by norm_num, ?_⟩, by norm_num, ?_⟩
  · norm_num [Logisticscost1.matchCount, Logisticscost1.default_new_base_fee_brackets,
      Logisticscost1.bracketMatches, Logisticscost1.eps, List.filter_cons,
      Bool.and_eq_true, decide_eq_true_eq]
  · have hv : max (OzonSpec.pyOrQ (some (190.0000000001 : ℚ)) 0) 0
        = (190.0000000001 : ℚ) := by
      rw [OzonSpec.pyOrQ_some_zero]
      exact max_eq_left (by norm_num)
    rw [Logisticscost1.new_base_fee_eq_find, hv, Logisticscost1.find?_eq_head_filter]
    norm_num [Logisticscost1.default_new_base_fee_brackets,
      Logisticscost1.bracketMatches, Logisticscost1.eps, List.filter_cons,
      Bool.and_eq_true, decide_eq_true_eq]

/-- Claim C2 (amended): restricted to volumes that are a whole number of
millilitres — as all bounds of the table are — exactly one bracket matches
every volume in [0, 190] L, and every volume above 190 L returns the last
bracket's fee 792. -/
theorem C2_bracket_coverage_grid (n : ℕ) :
    ((n : ℚ) / 1000 ≤ 190 →
      Logisticscost1.matchCount ((n : ℚ) / 1000)
        Logisticscost1.default_new_base_fee_brackets = 1)
    ∧ (190 < (n : ℚ) / 1000 →
      Logisticscost1.new_base_fee_by_volume (some ((n : ℚ) / 1000))
        Logisticscost1.default_new_base_fee_brackets = 792) := by
  have hcount : (Logisticscost1.milliBrackets.filter (Logisticscost1.natMatches n)).length = 1 :=
    Logisticscost1.tiles_count Logisticscost1.milliBrackets 0 Logisticscost1.milli_tiles
      n (Nat.zero_le n)
  constructor
  · intro _
    unfold Logisticscost1.matchCount
    rw [Logisticscost1.filter_grid_eq n, List.length_map]
    exact hcount
  · intro h190
    have hn : 190000 < n := by
      by_contra hc
      push_neg at hc
      have h2 : (n : ℚ) ≤ 190000 := by exact_mod_cast hc
      have h3 : (n : ℚ) / 1000 ≤ 190 := by linarith
      linarith
    have hmem : ((190001 : ℕ), (none : Option ℕ), (792 : ℚ))
        ∈ Logisticscost1.milliBrackets := by
      simp [Logisticscost1.milliBrackets]
    have hmatch : Logisticscost1.natMatches n (190001, none, 792) = true := by
      simp only [Logisticscost1.natMatches, Bool.and_eq_true, decide_eq_true_eq]
      exact ⟨by omega, trivial⟩
    have hfl : Logisticscost1.milliBrackets.filter (Logisticscost1.natMatches n)
        = [(190001, none, 792)] := by
      obtain ⟨q, hq⟩ := List.length_eq_one.mp hcount
      have hm2 : ((190001 : ℕ), (none : Option ℕ), (792 : ℚ))
          ∈ Logisticscost1.milliBrackets.filter (Logisticscost1.natMatches n) :=
        List.mem_filter.mpr ⟨hmem, hmatch⟩
      rw [hq] at hm2 ⊢
      rw [List.mem_singleton] at hm2
      rw [hm2]
    have hv : max (OzonSpec.pyOrQ (some ((n : ℚ) / 1000)) 0) 0 = (n : ℚ) / 1000 := by
      rw [OzonSpec.pyOrQ_some_zero]
      exact max_eq_left (by positivity)
    rw [Logisticscost1.new_base_fee_eq_find, hv, Logisticscost1.find?_eq_head_filter,
      Logisticscost1.filter_grid_eq n, hfl]
    simp [Logisticscost1.toBracket]

/-- Closed instance of C2 (amended) at 0.5 L (500 mL). -/
theorem C2_bracket_coverage_grid_witness :
    Logisticscost1.matchCount (((500 : ℕ) : ℚ) / 1000)
      Logisticscost1.default_new_base_fee_brackets = 1 :=
  (C2_bracket_coverage_grid 500).1 (by norm_num)
